import Mathlib

/-!
Verification model of the iKunMonitor desktop sampler
(`iKunMonitorActivator/desktop_sampler.py`).

The Python module is shallowly embedded: pure parsing/computation helpers
become Lean functions over `ℚ`/`ℤ`/`String`, and the stateful loops
(`StreamingFpsBgWorker._loop_atrace`, `run_sampler_loop`, ...) become explicit
transition functions on state structures.  Remote I/O (adb calls, the
trace-processor query collaborator) is modelled by oracle functions passed in
as arguments.  Float timestamps and percentages are modelled as rationals.
-/

namespace IKun

/-! ### atrace frame-event counting (`_count_frame_events`) -/

/-- One `tracing_mark_write` event extracted by `_ATRACE_MARK_RE`:
timestamp (seconds, the regex group `(\d+\.\d+)`) and the stripped marker
text (group 3). -/
structure AtraceEvent where
  ts : ℚ
  marker : String
deriving Repr, DecidableEq

/-- Model of `_FRAME_MARKERS`: markers indicating one frame of rendering work. -/
def frameMarkers : List String :=
  ["queueBuffer", "eglSwapBuffers", "eglSwapBuffersWithDamageKHR"]

/-- Timestamp sort, modelling Python `timestamps.sort()` (any correct sort of
rationals produces the same list, the order being linear). -/
def sortQ (l : List ℚ) : List ℚ :=
  List.insertionSort (· ≤ ·) l

/-- The `for t in timestamps[1:]` deduplication loop of `_count_frame_events`:
keep `t` only when `t - deduped[-1] > 0.002`. `last` is the last retained
timestamp (`deduped[-1]`). -/
def dedupClose (last : ℚ) : List ℚ → List ℚ
  | [] => []
  | t :: rest =>
      if t - last > 1/500 then t :: dedupClose t rest
      else dedupClose last rest

/-- Model of `deduped = [timestamps[0]]` followed by the dedup loop. -/
def dedupTimestamps : List ℚ → List ℚ
  | [] => []
  | t :: rest => t :: dedupClose t rest

/-- The raw (pre-dedup) timestamp selection of `_count_frame_events`:
method A keeps `tracing_mark_write` events whose marker is a frame marker and
whose timestamp is `> since_ts`; when method A yields nothing, method B keeps
VSYNC/composition event timestamps `> since_ts`. -/
def rawFrameTimestamps (markerEvents : List AtraceEvent) (vsyncTs : List ℚ)
    (since_ts : ℚ) : List ℚ :=
  let tsA := (markerEvents.filter
    (fun e => decide (e.marker ∈ frameMarkers ∧ e.ts > since_ts))).map AtraceEvent.ts
  if tsA.isEmpty then vsyncTs.filter (fun t => decide (t > since_ts)) else tsA

/-- The method tag returned by `_count_frame_events`. -/
def frameMethod (markerEvents : List AtraceEvent) (vsyncTs : List ℚ)
    (since_ts : ℚ) : String :=
  let tsA := (markerEvents.filter
    (fun e => decide (e.marker ∈ frameMarkers ∧ e.ts > since_ts))).map AtraceEvent.ts
  if tsA.isEmpty then
    if (vsyncTs.filter (fun t => decide (t > since_ts))).isEmpty then "no_events"
    else "atrace_vsync"
  else "atrace_marker"

/-- The deduplicated timestamp list built by `_count_frame_events`
(sort, then drop events within 2ms of the previously retained one). -/
def dedupedFrameTimestamps (markerEvents : List AtraceEvent) (vsyncTs : List ℚ)
    (since_ts : ℚ) : List ℚ :=
  dedupTimestamps (sortQ (rawFrameTimestamps markerEvents vsyncTs since_ts))

/-- Model of `_count_frame_events(dump_text, since_ts)`, with the regex-extraction
stage represented by the two event lists.  Returns
`(frame_count, min_ts, max_ts, method)` =
`(len(deduped), deduped[0], deduped[-1], method)`, or `(0, 0, 0, "no_events")`
when no timestamps survive the selection. -/
def countFrameEvents (markerEvents : List AtraceEvent) (vsyncTs : List ℚ)
    (since_ts : ℚ) : ℕ × ℚ × ℚ × String :=
  match dedupedFrameTimestamps markerEvents vsyncTs since_ts with
  | [] => (0, 0, 0, "no_events")
  | h :: t => ((h :: t).length, h, (h :: t).getLastD 0,
      frameMethod markerEvents vsyncTs since_ts)

/-! ### `StreamingFpsBgWorker._loop_atrace` -/

/-- The per-snapshot FPS computation of `_loop_atrace`:
`frame_count / span` when `max_ts > min_ts` and the span exceeds 0.05s,
`frame_count` when the span is positive but ≤ 0.05s or not positive at all,
and no value when there are no frames. -/
def atraceFps (frame_count : ℕ) (min_ts max_ts : ℚ) : Option ℚ :=
  if frame_count > 0 ∧ max_ts > min_ts then
    let span := max_ts - min_ts
    if span > 1/20 then some (frame_count / span) else some (frame_count : ℚ)
  else if frame_count > 0 then some (frame_count : ℚ)
  else none

/-- One observation of the `_loop_atrace` body: either `_atrace_dump()` raised
(`readFail`), or it returned a dump whose extracted events are the two lists. -/
inductive AtraceObs
  | readFail
  | dump (markerEvents : List AtraceEvent) (vsyncTs : List ℚ)
deriving Repr

/-- The loop state of `_loop_atrace`: the shared `consecutive_empty` counter,
`last_max_ts`, whether the loop has switched to `_loop_perfetto`, and whether
`_atrace_stop()` was called on the way out. -/
structure AtraceLoopSt where
  consecutive_empty : ℕ
  last_max_ts : ℚ
  mode_perfetto : Bool
  atrace_stopped : Bool
deriving Repr, DecidableEq

/-- Initial `_loop_atrace` state (`last_max_ts = 0.0`, `consecutive_empty = 0`). -/
def atraceLoopInit : AtraceLoopSt :=
  ⟨0, 0, false, false⟩

/-- One iteration of the `_loop_atrace` while-body (enabled, with a target).
After the loop has switched to Perfetto mode the atrace state no longer
changes (`_loop_atrace` has returned).  Returns the new state together with
the FPS published to the latest-value slot, if any. -/
def loopAtraceStep (st : AtraceLoopSt) (obs : AtraceObs) : AtraceLoopSt × Option ℚ :=
  if st.mode_perfetto then (st, none)
  else
    match obs with
    | .readFail =>
        let c := st.consecutive_empty + 1
        if c ≥ 5 then
          ({ st with
              consecutive_empty := c
              mode_perfetto := true
              atrace_stopped := true }, none)
        else ({ st with consecutive_empty := c }, none)
    | .dump me vs =>
        let r := countFrameEvents me vs st.last_max_ts
        let frame_count := r.1
        let min_ts := r.2.1
        let max_ts := r.2.2.1
        if frame_count > 0 ∧ max_ts > min_ts then
          ({ st with consecutive_empty := 0, last_max_ts := max_ts },
            atraceFps frame_count min_ts max_ts)
        else if frame_count > 0 then
          ({ st with
              consecutive_empty := 0
              last_max_ts := if max_ts > 0 then max_ts else st.last_max_ts },
            atraceFps frame_count min_ts max_ts)
        else
          let c := st.consecutive_empty + 1
          if c ≥ 10 then
            ({ st with
                consecutive_empty := c
                mode_perfetto := true
                atrace_stopped := true }, none)
          else ({ st with consecutive_empty := c }, none)

/-- Folding `loopAtraceStep` over a list of observations. -/
def loopAtraceSteps (st : AtraceLoopSt) (l : List AtraceObs) : AtraceLoopSt :=
  l.foldl (fun s o => (loopAtraceStep s o).1) st

/-! ### `perfetto_fps_from_trace` filter ranking and selection -/

/-- One entry of the `filters` list built by `perfetto_fps_from_trace`. -/
inductive FtFilter
  | layerEq (c : String)
  | layerLike (c : String)
  | pkgLike (p : String)
  | nameLike (p : String)
  | unfiltered
deriving Repr, DecidableEq

/-- The `human` tag of a filter, as in the source's detail strings. -/
def filterHuman : FtFilter → String
  | .layerEq c => "layer_eq=" ++ c
  | .layerLike c => "layer_like=" ++ c
  | .pkgLike p => "pkg_like=" ++ p
  | .nameLike p => "name_like=" ++ p
  | .unfiltered => "unfiltered"

/-- Python `str.strip()`: drop leading and trailing whitespace. -/
def pyStrip (s : String) : String :=
  String.mk
    (((s.toList.dropWhile Char.isWhitespace).reverse.dropWhile
      Char.isWhitespace).reverse)

/-- The candidate-accumulation step: append `x.strip()` when non-empty and
not already present (`if s and s not in cands: cands.append(s)`). -/
def addCand (cands : List String) (x : String) : List String :=
  let s := pyStrip x
  if s ≠ "" ∧ s ∉ cands then cands ++ [s] else cands

/-- The `cands` list built from `[layer_hint] + (layer_candidates or [])`. -/
def candList (layer_hint : Option String)
    (layer_candidates : Option (List String)) : List String :=
  ((layer_hint.getD "") :: (layer_candidates.getD [])).foldl addCand []

/-- The `filters` accumulated by `perfetto_fps_from_trace` before the final
unfiltered entry: with a `layer_name` column, exact matches on the first 10
candidates, then substring matches on the same candidates, then a substring
match on the target package; with only a `name` column, a substring match on
the package. -/
def buildFiltersBase (cols : List String) (layer_hint : Option String)
    (layer_candidates : Option (List String)) (target_pkg : String) :
    List FtFilter :=
  let pkg := pyStrip target_pkg
  if "layer_name" ∈ cols then
    let cands := (candList layer_hint layer_candidates).take 10
    cands.map FtFilter.layerEq ++ cands.map FtFilter.layerLike ++
      (if pkg ≠ "" then [FtFilter.pkgLike pkg] else [])
  else if "name" ∈ cols ∧ pkg ≠ "" then [FtFilter.nameLike pkg]
  else []

/-- The full ranked `filters` list: the base filters, always ending in the
unfiltered last resort. -/
def buildFilters (cols : List String) (layer_hint : Option String)
    (layer_candidates : Option (List String)) (target_pkg : String) :
    List FtFilter :=
  buildFiltersBase cols layer_hint layer_candidates target_pkg ++
    [FtFilter.unfiltered]

/-- The FPS + detail computed from accepted stats `(cnt, min_ts, max_ts)`
(timestamps in ns): `cnt / span` when `max_ts > min_ts > 0`, else
`cnt * 1000 / max(1, duration_ms)`. -/
def acceptStats (table : String) (human : String) (duration_ms : ℤ)
    (cnt : ℕ) (min_ts max_ts : ℤ) : ℚ × String :=
  let span_s : ℚ :=
    if max_ts > min_ts ∧ min_ts > 0 then ((max_ts - min_ts : ℤ) : ℚ) / 1000000000
    else 0
  if span_s > 0 then
    (cnt / span_s,
      "table=" ++ table ++ " filter=" ++ human ++ " count=" ++ toString cnt
        ++ " spanMs=" ++ toString (⌊span_s * 1000⌋ : ℤ))
  else
    ((cnt * 1000 : ℚ) / ((max 1 duration_ms : ℤ) : ℚ),
      "table=" ++ table ++ " filter=" ++ human ++ " count=" ++ toString cnt
        ++ " durMs=" ++ toString duration_ms)

/-- The `for key, where_sql, human in filters` selection loop.  `stats` is the
`query_c_min_max` oracle.  Returns the accepted `(fps, detail)` (if any)
together with the recorded `unfiltered_stats`. -/
def selectLoop (stats : FtFilter → Option (ℕ × ℤ × ℤ)) (table : String)
    (duration_ms : ℤ) :
    List FtFilter → Option (ℕ × ℤ × ℤ) →
      Option (ℚ × String) × Option (ℕ × ℤ × ℤ)
  | [], unf => (none, unf)
  | f :: rest, unf =>
      match stats f with
      | none => selectLoop stats table duration_ms rest unf
      | some (cnt, mn, mx) =>
          let unf2 := if f = .unfiltered then some (cnt, mn, mx) else unf
          if cnt ≤ 0 then selectLoop stats table duration_ms rest unf2
          else (some (acceptStats table (filterHuman f) duration_ms cnt mn mx),
            unf2)

/-- The tail of `perfetto_fps_from_trace` once the frame-timeline `table` and
its `cols` are known: build the ranked filters, run the selection loop, and
either return the accepted FPS, or (no filter accepted) the no-FPS result
with the unfiltered count in the diagnostic. -/
def perfettoSelect (stats : FtFilter → Option (ℕ × ℤ × ℤ)) (table : String)
    (cols : List String) (layer_hint : Option String)
    (layer_candidates : Option (List String)) (target_pkg : String)
    (duration_ms : ℤ) : Option ℚ × String :=
  let filters := buildFilters cols layer_hint layer_candidates target_pkg
  match selectLoop stats table duration_ms filters none with
  | (some (fps, detail), _) => (some fps, detail)
  | (none, some (cnt0, _, _)) =>
      (none, "frame_timeline 计数为 0（未过滤总计=" ++ toString cnt0 ++ "）")
  | (none, none) => (none, "trace_processor 查询失败：无法得到 frame_timeline 统计")

/-! ### CPU metrics (`_parse_cpu_total`, per-process CPU%) -/

/-- Helper for `pySplitWs`: accumulate the current (reversed) token while
walking the character list. -/
def splitWsAux : List Char → List Char → List String
  | [], acc => if acc.isEmpty then [] else [String.mk acc.reverse]
  | c :: rest, acc =>
      if c.isWhitespace then
        if acc.isEmpty then splitWsAux rest []
        else String.mk acc.reverse :: splitWsAux rest []
      else splitWsAux rest (c :: acc)

/-- Python `str.split()` with no argument: split on whitespace runs,
discarding empty tokens. -/
def pySplitWs (s : String) : List String :=
  splitWsAux s.toList []

/-- Helper for `pyInt?`: parse a non-empty all-digit run. -/
def digitsToNat : List Char → ℕ → Option ℕ
  | [], acc => some acc
  | c :: rest, acc =>
      if c.isDigit then digitsToNat rest (acc * 10 + (c.toNat - 48)) else none

/-- Python `int(x)` on a decimal string: optional leading minus then digits;
anything else raises (returns `none`). -/
def pyInt? (s : String) : Option ℤ :=
  match s.toList with
  | [] => none
  | '-' :: rest =>
      if rest.isEmpty then none
      else (digitsToNat rest 0).map (fun n => -(n : ℤ))
  | l => (digitsToNat l 0).map (fun n => (n : ℤ))

/-- Model of `CpuTotalState`. -/
structure CpuTotalState where
  prev_total : Option ℤ
  prev_idle : Option ℤ
deriving Repr, DecidableEq

def cpuTotalInit : CpuTotalState := ⟨none, none⟩

/-- Model of `_parse_cpu_total(stat_line, prev_state)`: parse the first `/proc/stat`
line, diff against the previous totals, clamp `1 - Δidle/Δtotal` to
[0,100].  Returns the percentage (when computable) and the updated state. -/
def parseCpuTotal (stat_line : String) (st : CpuTotalState) :
    Option ℚ × CpuTotalState :=
  let parts := pySplitWs stat_line
  if parts.length < 8 ∨ parts.head? ≠ some "cpu" then (none, st)
  else
    match ((parts.drop 1).take 7).mapM pyInt? with
    | none => (none, st)
    | some vals =>
        let total := vals.sum
        let idle := vals.getD 3 0
        let pct : Option ℚ :=
          match st.prev_total, st.prev_idle with
          | some pt, some pi =>
              let d_total := total - pt
              let d_idle := idle - pi
              if d_total > 0 then
                some (max 0 (min 100 ((1 - (d_idle : ℚ) / (d_total : ℚ)) * 100)))
              else none
          | _, _ => none
        (pct, ⟨some total, some idle⟩)

/-- Model of `CpuState` (per-process tick counter state). -/
structure CpuState where
  prev_ticks : Option ℤ
  prev_t_ms : Option ℤ
deriving Repr, DecidableEq

def cpuInit : CpuState := ⟨none, none⟩

/-- The per-process CPU%% computation of `_sample_pid_and_cpu` (given a
previous tick sample): diff ticks, divide by clock Hz, normalize by wall time
and core count, clamp to [0,100]. -/
def procCpuPct (ticks prev_ticks now_ms prev_t_ms hz cores : ℤ) : ℚ :=
  let dt_ms : ℤ := max 1 (now_ms - prev_t_ms)
  let dt_ticks : ℤ := max 0 (ticks - prev_ticks)
  let cpu_sec : ℚ := (dt_ticks : ℚ) / ((max 1 hz : ℤ) : ℚ)
  let wall_sec : ℚ := (dt_ms : ℚ) / 1000
  let pct := cpu_sec / (wall_sec * (cores : ℚ)) * 100
  max 0 (min 100 pct)

/-! ### gfxinfo legacy frame-counter fallback (`GfxState`, `_sample_fps`) -/

/-- Model of `GfxState`. -/
structure GfxState where
  prev_total : Option ℤ
  prev_janky : Option ℤ
  prev_t_ms : Option ℤ
  no_frame_streak : ℕ
  fail_streak : ℕ
  disabled : Bool
deriving Repr, DecidableEq

def gfxInit : GfxState := ⟨none, none, none, 0, 0, false⟩

/-- One observation of the gfxinfo path in `_sample_fps`: the dumpsys call
raised, or it returned text parsed by `_parse_gfx_totals` into
`(total, janky)`. -/
inductive GfxObs
  | err
  | parsed (total janky : Option ℤ)
deriving Repr, DecidableEq

/-- The gfxinfo section of `_sample_fps` (the `if not gfx_state.disabled`
block): returns the updated state, the FPS value it produced (if any), and
whether the gfxinfo counter was invoked at all. -/
def gfxStep (st : GfxState) (now_ms : ℤ) (obs : GfxObs) :
    GfxState × Option ℚ × Bool :=
  if st.disabled then (st, none, false)
  else
    let step1 : GfxState × Option ℚ :=
      match obs with
      | .err => ({ st with fail_streak := st.fail_streak + 1 }, none)
      | .parsed total janky =>
          match total with
          | none => ({ st with fail_streak := st.fail_streak + 1 }, none)
          | some tt =>
              let step2 : GfxState × Option ℚ :=
                match st.prev_total, st.prev_t_ms with
                | some pt, some ptm =>
                    let dt_ms : ℤ := max 1 (now_ms - ptm)
                    let d_total : ℤ := max 0 (tt - pt)
                    if d_total > 0 then
                      ({ st with no_frame_streak := 0, fail_streak := 0 },
                        some (max 0 ((d_total : ℚ) * 1000 / (dt_ms : ℚ))))
                    else
                      ({ st with
                          no_frame_streak := st.no_frame_streak + 1
                          fail_streak := st.fail_streak + 1 }, none)
                | _, _ => (st, none)
              ({ step2.1 with
                  prev_total := some tt
                  prev_janky := janky
                  prev_t_ms := some now_ms }, step2.2)
    let st3 :=
      if step1.1.fail_streak ≥ 3 ∧ step1.1.disabled = false then
        { step1.1 with disabled := true }
      else step1.1
    (st3, step1.2, true)

/-! ### Sampler-loop configuration cache (`run_sampler_loop`) -/

/-- The parsed per-cycle configuration
(`enabled`, `targetPackage`, `samplingMs`, `metricKeys`). -/
structure LoopCfg where
  enabled : Bool
  target_pkg : String
  sampling_ms : ℤ
  keys : List String
deriving Repr, DecidableEq

/-- The configuration parsed from an empty/failed read
(`cfg = {}`): disabled, empty target, default 1000ms, no keys. -/
def emptyLoopCfg : LoopCfg := ⟨false, "", 1000, []⟩

/-- The last-known-good config cache of `run_sampler_loop`. -/
structure CfgCache where
  last_good_enabled : Bool
  last_good_target_pkg : String
  last_good_sampling_ms : ℤ
  last_good_keys : List String
  cfg_read_fail_streak : ℕ
deriving Repr, DecidableEq

/-- The config-caching logic of `run_sampler_loop` (after parsing): a valid
read refreshes the cache and resets the failure streak; an invalid read with
a cached good config bumps the streak and reuses the cache while the streak
stays ≤ 10, else discards the cache.  Returns the new cache and the effective
config used by the rest of the cycle. -/
def cfgStep (cache : CfgCache) (parsed : LoopCfg) : CfgCache × LoopCfg :=
  if parsed.enabled = true ∧ parsed.target_pkg ≠ "" then
    (⟨parsed.enabled, parsed.target_pkg, parsed.sampling_ms, parsed.keys, 0⟩,
      parsed)
  else if cache.last_good_enabled = true ∧ cache.last_good_target_pkg ≠ "" then
    let streak := cache.cfg_read_fail_streak + 1
    if streak ≤ 10 then
      ({ cache with cfg_read_fail_streak := streak },
        ⟨cache.last_good_enabled, cache.last_good_target_pkg,
          cache.last_good_sampling_ms, cache.last_good_keys⟩)
    else
      ({ cache with
          cfg_read_fail_streak := 0
          last_good_enabled := false
          last_good_target_pkg := "" }, parsed)
  else (cache, parsed)

/-- Whether an effective config sends the cycle into the sampling branch
(`enabled and target_pkg`); otherwise the cycle is Idle. -/
def cfgSampling (c : LoopCfg) : Bool :=
  c.enabled && !(c.target_pkg == "")

/-- A failed config read cycle (`cfg = {}` parsed). -/
def cfgStepFail (c : CfgCache) : CfgCache × LoopCfg :=
  cfgStep c emptyLoopCfg

/-- Iterating failed config reads, keeping only the cache. -/
def cfgFailIter (c : CfgCache) : ℕ → CfgCache
  | 0 => c
  | n + 1 => cfgFailIter (cfgStepFail c).1 n

/-- The cache right after a successful read of a valid config `g`. -/
def cacheOf (g : LoopCfg) : CfgCache :=
  ⟨g.enabled, g.target_pkg, g.sampling_ms, g.keys, 0⟩

/-! ### Per-session rate state and the Idle reset (`run_sampler_loop`) -/

/-- Model of `SfLatencyState`. -/
structure SfLatencyState where
  layer : Option String
  prev_max_present_ns : Option ℤ
  prev_t_ms : Option ℤ
  last_layer_update_ms : ℤ
  no_frame_streak : ℕ
  fail_streak : ℕ
  disabled : Bool
deriving Repr, DecidableEq

/-- Model of `NetState`. -/
structure NetState where
  prev_rx_bytes : Option ℚ
  prev_tx_bytes : Option ℚ
  prev_t_ms : Option ℤ
deriving Repr, DecidableEq

/-- The per-session mutable state touched by the Idle branch of
`run_sampler_loop`. -/
structure SessionState where
  cpu_state : CpuState
  cpu_total_state : CpuTotalState
  net_state : NetState
  gfx_state : GfxState
  sf_state : SfLatencyState
  last_fps_bg_at_ms : ℤ
  fps_bg_producing : Bool
deriving Repr, DecidableEq

/-- The reset performed by the `if not enabled or not target_pkg` (Idle)
branch of `run_sampler_loop`: gfx/sf frame states, total-CPU and network
rate states, and the FPS bookkeeping are cleared.  (The branch does not
touch `cpu_state` or `sf_state.last_layer_update_ms`.) -/
def idleReset (s : SessionState) : SessionState :=
  { s with
      gfx_state := gfxInit
      sf_state :=
        { s.sf_state with
            layer := none
            prev_max_present_ns := none
            prev_t_ms := none
            no_frame_streak := 0
            fail_streak := 0
            disabled := false }
      cpu_total_state := ⟨none, none⟩
      net_state := ⟨none, none, none⟩
      last_fps_bg_at_ms := 0
      fps_bg_producing := false }

/-! ### Dual-path negotiation (config read / metrics write path caching) -/

/-- The two candidate remote paths. -/
inductive PathKind
  | external
  | runAs
deriving Repr, DecidableEq

/-- Model of `cfg_path_mode` / `metrics_path_mode`: `""`, `"external"`, `"run-as"`. -/
inductive PathMode
  | unknown
  | external
  | runAs
deriving Repr, DecidableEq

def pathModeOf : PathKind → PathMode
  | .external => .external
  | .runAs => .runAs

def pathSourceName : PathKind → String
  | .external => "external"
  | .runAs => "run-as"

/-- The `cfg_readers` ordering: the cached mode's path first; with no cached
mode, external first. -/
def cfgReaderOrder : PathMode → List PathKind
  | .runAs => [.runAs, .external]
  | .external => [.external, .runAs]
  | .unknown => [.external, .runAs]

/-- The `writers` ordering (identical preference pattern). -/
def metricsWriterOrder : PathMode → List PathKind
  | .runAs => [.runAs, .external]
  | .external => [.external, .runAs]
  | .unknown => [.external, .runAs]

/-- Heuristic classification of an `AdbError` message
(`_is_no_such_file` / `_is_permission_denied` / `_is_run_as_not_debuggable`). -/
inductive AdbErrKind
  | notFound
  | permissionDenied
  | notDebuggable
  | other
deriving Repr, DecidableEq

/-- Outcome of one config-read attempt on one path. -/
inductive ReadOutcome
  | ok (text : String)
  | err (k : AdbErrKind)
deriving Repr, DecidableEq

/-- Result of the config-read loop: the text, the `cfg_source` tag, the new
`cfg_path_mode`, and which paths were actually probed, in order. -/
structure CfgReadResult where
  cfg_text : String
  cfg_source : String
  mode : PathMode
  probed : List PathKind
deriving Repr, DecidableEq

/-- The `for i, reader in enumerate(cfg_readers)` loop over the two readers
`r0, r1`: a success caches that path as the new mode; a first-reader failure
falls through to the second only for NotFound/PermissionDenied errors; a
last-reader failure classifies the error into `cfg_source` and leaves the
mode unchanged. -/
def tryCfgRead2 (mode : PathMode) (r0 r1 : PathKind)
    (oracle : PathKind → ReadOutcome) : CfgReadResult :=
  match oracle r0 with
  | .ok t => ⟨t, pathSourceName r0, pathModeOf r0, [r0]⟩
  | .err k =>
      if k = .notFound ∨ k = .permissionDenied then
        match oracle r1 with
        | .ok t => ⟨t, pathSourceName r1, pathModeOf r1, [r0, r1]⟩
        | .err k2 =>
            ⟨"", if k2 = .notDebuggable then "run-as:not-debuggable" else "missing",
              mode, [r0, r1]⟩
      else ⟨"", "missing", mode, [r0]⟩

/-- The whole config-read negotiation for a cycle, starting from the cached
mode. -/
def tryCfgRead (mode : PathMode) (oracle : PathKind → ReadOutcome) :
    CfgReadResult :=
  match cfgReaderOrder mode with
  | r0 :: r1 :: _ => tryCfgRead2 mode r0 r1 oracle
  | _ => ⟨"", "missing", mode, []⟩

/-- Outcome of one metrics-write attempt on one path. -/
inductive WriteOutcome
  | ok
  | err (k : AdbErrKind)
deriving Repr, DecidableEq

/-- Result of the metrics-write loop. -/
structure WriteResult where
  wrote : Bool
  mode : PathMode
  probed : List PathKind
deriving Repr, DecidableEq

/-- The `for i, (wmode, writer) in enumerate(writers)` loop over the two
writers. -/
def tryMetricsWrite2 (mode : PathMode) (r0 r1 : PathKind)
    (oracle : PathKind → WriteOutcome) : WriteResult :=
  match oracle r0 with
  | .ok => ⟨true, pathModeOf r0, [r0]⟩
  | .err k =>
      if k = .notFound ∨ k = .permissionDenied then
        match oracle r1 with
        | .ok => ⟨true, pathModeOf r1, [r0, r1]⟩
        | .err _ => ⟨false, mode, [r0, r1]⟩
      else ⟨false, mode, [r0]⟩

/-- The whole metrics-write negotiation for a cycle. -/
def tryMetricsWrite (mode : PathMode) (oracle : PathKind → WriteOutcome) :
    WriteResult :=
  match metricsWriterOrder mode with
  | r0 :: r1 :: _ => tryMetricsWrite2 mode r0 r1 oracle
  | _ => ⟨false, mode, []⟩

/-! ### `StreamingFpsBgWorker` latest-value slot and `_loop_perfetto` -/

/-- The shared latest-value slot of `StreamingFpsBgWorker`. -/
structure FpsWorkerSt where
  latest_fps : Option ℚ
  latest_fps_at_ms : ℤ
  latest_detail : String
  sample_count : ℕ
deriving Repr, DecidableEq

def fpsWorkerInit : FpsWorkerSt := ⟨none, 0, "", 0⟩

/-- One `_loop_perfetto` iteration's slot update after `_perfetto_once`
returned `(fps, detail)`: the latest value is replaced only for a usable
`fps ≥ 0`, but `sample_count` is incremented unconditionally. -/
def loopPerfettoIter (st : FpsWorkerSt) (fps : Option ℚ) (detail : String)
    (now_ms : ℤ) : FpsWorkerSt :=
  match fps with
  | some f =>
      if f ≥ 0 then ⟨some f, now_ms, detail, st.sample_count + 1⟩
      else { st with sample_count := st.sample_count + 1 }
  | none => { st with sample_count := st.sample_count + 1 }

/-- Model of `read_latest()`. -/
def readLatest (st : FpsWorkerSt) : Option ℚ × ℤ × String :=
  (st.latest_fps, st.latest_fps_at_ms, st.latest_detail)

/-- The per-cycle `fps_bg_producing` update of `run_sampler_loop`
(`if not fps_bg_producing and fps_bg.sample_count >= 2`). -/
def producingUpdate (producing : Bool) (count : ℕ) : Bool :=
  if producing = false ∧ count ≥ 2 then true else producing

/-- One freshness check on a `read_latest` snapshot `(pfps, pfps_at)`:
accepted when `pfps is not None and pfps >= 0 and pfps_at > last_at`. -/
def freshRead (last_at : ℤ) (r : Option ℚ × ℤ) : Option ℚ :=
  match r with
  | (some f, a) => if f ≥ 0 ∧ a > last_at then some (max 0 f) else none
  | (none, _) => none

/-- Performs `n` successive freshness checks starting at snapshot index `i`
(the short-poll wait loops of `_sample_fps`). -/
def findFresh (reads : ℕ → Option ℚ × ℤ) (last_at : ℤ) : ℕ → ℕ → Option ℚ
  | _, 0 => none
  | i, n + 1 =>
      match freshRead last_at (reads i) with
      | some v => some v
      | none => findFresh reads last_at (i + 1) n

/-- The producing branch of `_sample_fps`: an immediate read plus 6 polls,
all requiring a fresh timestamp; then the last read's value is accepted even
if stale; else no value. -/
def sampleFpsProducing (reads : ℕ → Option ℚ × ℤ) (last_at : ℤ) : Option ℚ :=
  match findFresh reads last_at 0 7 with
  | some v => some v
  | none =>
      match (reads 6).1 with
      | some f => if f ≥ 0 then some (max 0 f) else none
      | none => none

/-- Model of `_sample_fps`: when the bg worker is producing, only its latest-value
slot is consulted (the legacy gfxinfo counter is never invoked); otherwise
the gfxinfo fallback runs first, then the bg slot is polled (an immediate
check plus 10 polls, fresh values only).  `reads` gives the successive
`read_latest` snapshots; the returned `Bool` says whether the legacy counter
was invoked. -/
def sampleFps (want_fps : Bool) (producing : Bool)
    (reads : ℕ → Option ℚ × ℤ) (last_at : ℤ) (gfx_st : GfxState)
    (gfx_obs : GfxObs) (now_ms : ℤ) : Option ℚ × GfxState × Bool :=
  if want_fps = false then (none, gfx_st, false)
  else if producing then (sampleFpsProducing reads last_at, gfx_st, false)
  else
    let r := gfxStep gfx_st now_ms gfx_obs
    match r.2.1 with
    | some v => (some v, r.1, r.2.2)
    | none => (findFresh reads last_at 0 11, r.1, r.2.2)

/-- An observation that is a parsed snapshot containing no frame events
relative to the last consumed boundary `since`. -/
def emptyDumpAt (since : ℚ) (o : AtraceObs) : Prop :=
  ∃ me vs, o = .dump me vs ∧ (countFrameEvents me vs since).1 = 0

/-- C5 counterexample input: a session state with every accumulator
populated. -/
def c5state : SessionState :=
  ⟨⟨some 100, some 5000⟩, ⟨some 11, some 22⟩, ⟨some 1, some 2, some 3⟩,
    ⟨some 4, some 5, some 6, 1, 2, true⟩,
    ⟨some "layer", some 7, some 8, 9, 1, 2, true⟩, 77, true⟩

/-- A failing gfxinfo observation: the dumpsys command raised, or its output
had no parsable `Total frames rendered` counter. -/
def gfxFailObs (o : GfxObs) : Prop :=
  o = .err ∨ ∃ j, o = .parsed none j

/-- A `query_c_min_max` result carrying no usable count: parse failure or a
zero count. -/
def zeroOrFailed (r : Option (ℕ × ℤ × ℤ)) : Prop :=
  r = none ∨ ∃ mn mx, r = some (0, mn, mx)

/-- C4 concrete stats oracle from the spec's example: exact-match count 0,
substring-match count 12 (over a 0.5s span), unfiltered count 40. -/
def c4stats : FtFilter → Option (ℕ × ℤ × ℤ)
  | .layerEq _ => some (0, 0, 0)
  | .layerLike _ => some (12, 100000000, 600000000)
  | .pkgLike _ => some (25, 0, 0)
  | .nameLike _ => some (0, 0, 0)
  | .unfiltered => some (40, 0, 0)

/-- C3 counterexample stats oracle: every layer-name filter counts 0, the
unfiltered count is 40. -/
def c3stats : FtFilter → Option (ℕ × ℤ × ℤ)
  | .layerEq _ => some (0, 0, 0)
  | .layerLike _ => some (0, 0, 0)
  | .pkgLike _ => some (0, 0, 0)
  | .nameLike _ => some (0, 0, 0)
  | .unfiltered => some (40, 0, 0)

/-- C3 oracle for the amended-claim witness: every filter (unfiltered
included) counts zero. -/
def c3zero : FtFilter → Option (ℕ × ℤ × ℤ) := fun _ => some (0, 0, 0)

/-- C3 oracle for the amended-claim witness: only the unfiltered query
parses, with count 30. -/
def c3pos : FtFilter → Option (ℕ × ℤ × ℤ)
  | .unfiltered => some (30, 0, 0)
  | _ => none

/-! ## Helper lemmas -/

/-- The 2ms separation relation on timestamps. -/
def gapGT (a b : ℚ) : Prop := b - a > 1/500

instance : IsTrans ℚ gapGT where
  trans a b c hab hbc := by
    simp only [gapGT] at *
    linarith

theorem dedupClose_length_le (l : List ℚ) : ∀ last, (dedupClose last l).length ≤ l.length := by
  induction l with
  | nil => intro last; simp [dedupClose]
  | cons t rest ih =>
      intro last
      simp only [dedupClose]
      split
      · simpa using Nat.succ_le_succ (ih t)
      · exact Nat.le_succ_of_le (ih last)

theorem dedupTimestamps_length_le (l : List ℚ) :
    (dedupTimestamps l).length ≤ l.length := by
  cases l with
  | nil => simp [dedupTimestamps]
  | cons t rest =>
      simpa [dedupTimestamps] using Nat.succ_le_succ (dedupClose_length_le rest t)

theorem sortQ_length (l : List ℚ) : (sortQ l).length = l.length :=
  (List.perm_insertionSort _ l).length_eq

theorem chain'_dedupClose (l : List ℚ) :
    ∀ last, List.Chain' gapGT (last :: dedupClose last l) := by
  induction l with
  | nil => intro last; simp [dedupClose]
  | cons t rest ih =>
      intro last
      simp only [dedupClose]
      split
      · exact List.Chain'.cons (by assumption) (ih t)
      · exact ih last

theorem pairwise_dedupTimestamps (l : List ℚ) :
    List.Pairwise gapGT (dedupTimestamps l) := by
  cases l with
  | nil => simp [dedupTimestamps]
  | cons t rest =>
      have h : List.Chain' gapGT (t :: dedupClose t rest) := chain'_dedupClose rest t
      simpa [dedupTimestamps] using List.chain'_iff_pairwise.mp h

theorem countFrameEvents_count_eq (me : List AtraceEvent) (vs : List ℚ) (s : ℚ) :
    (countFrameEvents me vs s).1 = (dedupedFrameTimestamps me vs s).length := by
  unfold countFrameEvents
  cases h : dedupedFrameTimestamps me vs s with
  | nil => simp [h]
  | cons a t => simp

/-! ## Claim theorems -/

/-- C1: in the streaming (atrace) strategy, the per-snapshot frame-boundary
timestamps are deduplicated so that any two retained events are more than 2ms
(1/500 s) apart and the deduplicated count never exceeds the raw event count;
the published FPS is `eventCount / (maxTs - minTs)` when the span exceeds
50ms, else `eventCount`; in particular, when the span is ≤ 0 the FPS never
exceeds `eventCount`.  The loop publishes exactly `atraceFps` of the counted
events. -/
theorem atrace_dedup_fps_spec :
    (∀ (me : List AtraceEvent) (vs : List ℚ) (s : ℚ),
      (countFrameEvents me vs s).1 ≤ (rawFrameTimestamps me vs s).length) ∧
    (∀ (me : List AtraceEvent) (vs : List ℚ) (s : ℚ),
      List.Pairwise gapGT (dedupedFrameTimestamps me vs s)) ∧
    (∀ (c : ℕ) (mn mx : ℚ), 0 < c →
      (mx - mn > 1/20 → atraceFps c mn mx = some ((c : ℚ) / (mx - mn))) ∧
      (mx - mn ≤ 1/20 → atraceFps c mn mx = some (c : ℚ)) ∧
      (mx - mn ≤ 0 → ∀ f, atraceFps c mn mx = some f → f ≤ (c : ℚ))) ∧
    (∀ (st : AtraceLoopSt) (me : List AtraceEvent) (vs : List ℚ),
      st.mode_perfetto = false →
      (loopAtraceStep st (.dump me vs)).2 =
        atraceFps (countFrameEvents me vs st.last_max_ts).1
          (countFrameEvents me vs st.last_max_ts).2.1
          (countFrameEvents me vs st.last_max_ts).2.2.1) := by
  refine ⟨?_, ?_, ?_, ?_⟩
  · intro me vs s
    rw [countFrameEvents_count_eq]
    calc (dedupedFrameTimestamps me vs s).length
        ≤ (sortQ (rawFrameTimestamps me vs s)).length :=
          dedupTimestamps_length_le _
      _ = (rawFrameTimestamps me vs s).length := sortQ_length _
  · intro me vs s
    exact pairwise_dedupTimestamps _
  · intro c mn mx hc
    refine ⟨?_, ?_, ?_⟩
    · intro hspan
      have hmx : mx > mn := by linarith [show (0:ℚ) < 1/20 by norm_num]
      simp only [atraceFps, if_pos (And.intro hc hmx), if_pos hspan]
    · intro hspan
      by_cases hmx : mx > mn
      · have : ¬ (mx - mn > 1/20) := by linarith
        simp only [atraceFps, if_pos (And.intro hc hmx), if_neg this]
      · have hcond : ¬ (c > 0 ∧ mx > mn) := fun h => hmx h.2
        simp only [atraceFps, if_neg hcond, if_pos hc]
    · intro hspan f hf
      have hmx : ¬ (mx > mn) := by intro h; linarith
      have hcond : ¬ (c > 0 ∧ mx > mn) := fun h => hmx h.2
      simp only [atraceFps, if_neg hcond, if_pos hc, Option.some.injEq] at hf
      simp [← hf]
  · intro st me vs hmode
    simp only [loopAtraceStep, hmode, Bool.false_eq_true, if_false]
    set r := countFrameEvents me vs st.last_max_ts with hr
    by_cases h1 : r.1 > 0 ∧ r.2.2.1 > r.2.1
    · simp [h1]
    · by_cases h2 : r.1 > 0
      · simp only [h1, h2, if_true, if_false]
        split <;> rfl
      · have hz : r.1 = 0 := by omega
        have hfps : atraceFps r.1 r.2.1 r.2.2.1 = none := by
          simp [atraceFps, hz]
        simp only [h1, h2, if_false, hfps]
        split <;> first
          | rfl
          | (split <;> rfl)

/-- C1 witness: concrete instantiation of the hypotheses of
`atrace_dedup_fps_spec`. -/
theorem atrace_dedup_fps_spec_witness :
    0 < 3 ∧ ((1 : ℚ) - 0 > 1/20) ∧
    atraceFps 3 0 1 = some ((3 : ℚ) / (1 - 0)) ∧
    ((5 : ℚ) - 5 ≤ 1/20) ∧ atraceFps 3 5 5 = some (3 : ℚ) ∧
    atraceLoopInit.mode_perfetto = false ∧
    (loopAtraceStep atraceLoopInit (.dump [⟨1, "queueBuffer"⟩] [])).2 =
      atraceFps (countFrameEvents [⟨1, "queueBuffer"⟩] [] atraceLoopInit.last_max_ts).1
        (countFrameEvents [⟨1, "queueBuffer"⟩] [] atraceLoopInit.last_max_ts).2.1
        (countFrameEvents [⟨1, "queueBuffer"⟩] [] atraceLoopInit.last_max_ts).2.2.1 :=
  ⟨by decide, by norm_num,
    (atrace_dedup_fps_spec.2.2.1 3 0 1 (by decide)).1 (by norm_num),
    by norm_num,
    (atrace_dedup_fps_spec.2.2.1 3 5 5 (by decide)).2.1 (by norm_num),
    rfl,
    atrace_dedup_fps_spec.2.2.2 atraceLoopInit [⟨1, "queueBuffer"⟩] [] rfl⟩

theorem loopAtraceStep_absorb (st : AtraceLoopSt) (o : AtraceObs)
    (h : st.mode_perfetto = true) : loopAtraceStep st o = (st, none) := by
  simp [loopAtraceStep, h]

theorem loopAtraceSteps_absorb (l : List AtraceObs) :
    ∀ st : AtraceLoopSt, st.mode_perfetto = true → loopAtraceSteps st l = st := by
  induction l with
  | nil => intro st _; rfl
  | cons o rest ih =>
      intro st h
      simp only [loopAtraceSteps, List.foldl_cons]
      rw [loopAtraceStep_absorb st o h]
      exact ih st h

theorem loopAtraceStep_fail (st : AtraceLoopSt) (h : st.mode_perfetto = false) :
    (loopAtraceStep st .readFail).1 =
      if st.consecutive_empty + 1 ≥ 5 then
        ⟨st.consecutive_empty + 1, st.last_max_ts, true, true⟩
      else
        ⟨st.consecutive_empty + 1, st.last_max_ts, false, st.atrace_stopped⟩ := by
  simp only [loopAtraceStep, h, Bool.false_eq_true, if_false]
  split
  · rfl
  · simp [h.symm]

theorem atrace_fail_run (k : ℕ) :
    ∀ st : AtraceLoopSt, st.mode_perfetto = false → 1 ≤ k →
      5 ≤ st.consecutive_empty + k →
      (loopAtraceSteps st (List.replicate k .readFail)).mode_perfetto = true ∧
      (loopAtraceSteps st (List.replicate k .readFail)).atrace_stopped = true := by
  induction k with
  | zero => intro st _ h1 _; omega
  | succ j ih =>
      intro st hmode _ hsum
      rw [List.replicate_succ]
      simp only [loopAtraceSteps, List.foldl_cons]
      rw [loopAtraceStep_fail st hmode]
      by_cases hge : st.consecutive_empty + 1 ≥ 5
      · rw [if_pos hge]
        rw [show (List.foldl (fun s o => (loopAtraceStep s o).1)
            (⟨st.consecutive_empty + 1, st.last_max_ts, true, true⟩ : AtraceLoopSt)
            (List.replicate j .readFail)) =
          loopAtraceSteps ⟨st.consecutive_empty + 1, st.last_max_ts, true, true⟩
            (List.replicate j .readFail) from rfl]
        rw [loopAtraceSteps_absorb _ _ rfl]
        exact ⟨rfl, rfl⟩
      · rw [if_neg hge]
        have hj : 1 ≤ j := by omega
        exact ih ⟨st.consecutive_empty + 1, st.last_max_ts, false, st.atrace_stopped⟩
          rfl hj (by simp; omega)

theorem loopAtraceStep_empty (st : AtraceLoopSt) (me : List AtraceEvent)
    (vs : List ℚ) (h : st.mode_perfetto = false)
    (hz : (countFrameEvents me vs st.last_max_ts).1 = 0) :
    (loopAtraceStep st (.dump me vs)).1 =
      if st.consecutive_empty + 1 ≥ 10 then
        ⟨st.consecutive_empty + 1, st.last_max_ts, true, true⟩
      else
        ⟨st.consecutive_empty + 1, st.last_max_ts, false, st.atrace_stopped⟩ := by
  simp only [loopAtraceStep, h, Bool.false_eq_true, if_false, hz]
  simp only [gt_iff_lt, lt_self_iff_false, false_and, if_false, lt_irrefl]
  split
  · rfl
  · simp [h.symm]

theorem atrace_empty_run (k : ℕ) :
    ∀ (st : AtraceLoopSt) (l : List AtraceObs), st.mode_perfetto = false →
      l.length = k → (∀ o ∈ l, emptyDumpAt st.last_max_ts o) → 1 ≤ k →
      10 ≤ st.consecutive_empty + k →
      (loopAtraceSteps st l).mode_perfetto = true ∧
      (loopAtraceSteps st l).atrace_stopped = true := by
  induction k with
  | zero => intro st l _ _ _ h1 _; omega
  | succ j ih =>
      intro st l hmode hlen hall _ hsum
      cases l with
      | nil => simp at hlen
      | cons o rest =>
          obtain ⟨me, vs, rfl, hz⟩ := hall o (List.mem_cons_self o rest)
          simp only [loopAtraceSteps, List.foldl_cons]
          rw [loopAtraceStep_empty st me vs hmode hz]
          by_cases hge : st.consecutive_empty + 1 ≥ 10
          · rw [if_pos hge]
            rw [show (List.foldl (fun s o => (loopAtraceStep s o).1)
                (⟨st.consecutive_empty + 1, st.last_max_ts, true, true⟩ : AtraceLoopSt)
                rest) =
              loopAtraceSteps ⟨st.consecutive_empty + 1, st.last_max_ts, true, true⟩
                rest from rfl]
            rw [loopAtraceSteps_absorb _ _ rfl]
            exact ⟨rfl, rfl⟩
          · rw [if_neg hge]
            have hj : 1 ≤ j := by
              simp only [List.length_cons] at hlen
              omega
            exact ih ⟨st.consecutive_empty + 1, st.last_max_ts, false, st.atrace_stopped⟩
              rest rfl (by simpa using hlen)
              (fun o ho => hall o (List.mem_cons_of_mem _ ho)) hj (by simp; omega)

/-- C7: in the streaming strategy, 5 consecutive trace-buffer read failures,
or 10 consecutive snapshots containing no frame events, tear the streaming
source down (atrace stopped) and transition the worker to the offline
(Perfetto) strategy; a snapshot that yields frame events resets the shared
consecutive-empty counter to 0. -/
theorem atrace_demotion_spec :
    (∀ st : AtraceLoopSt, st.mode_perfetto = false →
      (loopAtraceSteps st (List.replicate 5 .readFail)).mode_perfetto = true ∧
      (loopAtraceSteps st (List.replicate 5 .readFail)).atrace_stopped = true) ∧
    (∀ (st : AtraceLoopSt) (l : List AtraceObs), st.mode_perfetto = false →
      l.length = 10 → (∀ o ∈ l, emptyDumpAt st.last_max_ts o) →
      (loopAtraceSteps st l).mode_perfetto = true ∧
      (loopAtraceSteps st l).atrace_stopped = true) ∧
    (∀ (st : AtraceLoopSt) (me : List AtraceEvent) (vs : List ℚ),
      st.mode_perfetto = false → (countFrameEvents me vs st.last_max_ts).1 > 0 →
      (loopAtraceStep st (.dump me vs)).1.consecutive_empty = 0) := by
  refine ⟨?_, ?_, ?_⟩
  · intro st h
    exact atrace_fail_run 5 st h (by omega) (by omega)
  · intro st l h hlen hall
    exact atrace_empty_run 10 st l h hlen hall (by omega) (by omega)
  · intro st me vs hmode hpos
    simp only [loopAtraceStep, hmode, Bool.false_eq_true, if_false]
    by_cases h1 : (countFrameEvents me vs st.last_max_ts).1 > 0 ∧
        (countFrameEvents me vs st.last_max_ts).2.2.1 > (countFrameEvents me vs st.last_max_ts).2.1
    · simp [h1]
    · simp only [h1, hpos, if_true, if_false]
      split
      · rfl
      · split <;> rfl

/-- C7 witness: concrete runs demonstrating the demotion and the counter
reset. -/
theorem atrace_demotion_spec_witness :
    ((loopAtraceSteps atraceLoopInit (List.replicate 5 .readFail)).mode_perfetto = true ∧
      (loopAtraceSteps atraceLoopInit (List.replicate 5 .readFail)).atrace_stopped = true) ∧
    ((loopAtraceSteps atraceLoopInit (List.replicate 10 (.dump [] []))).mode_perfetto = true ∧
      (loopAtraceSteps atraceLoopInit (List.replicate 10 (.dump [] []))).atrace_stopped = true) ∧
    (loopAtraceStep (⟨3, 0, false, false⟩ : AtraceLoopSt)
      (.dump [⟨1, "queueBuffer"⟩] [])).1.consecutive_empty = 0 :=
  ⟨atrace_demotion_spec.1 atraceLoopInit rfl,
    atrace_demotion_spec.2.1 atraceLoopInit (List.replicate 10 (.dump [] [])) rfl rfl
      (by
        intro o ho
        rcases List.eq_of_mem_replicate ho with rfl
        exact ⟨[], [], rfl, rfl⟩),
    atrace_demotion_spec.2.2 ⟨3, 0, false, false⟩ [⟨1, "queueBuffer"⟩] [] rfl
      (by decide)⟩

theorem cfgStepFail_reuse (c : CfgCache) (hen : c.last_good_enabled = true)
    (htp : c.last_good_target_pkg ≠ "")
    (hs : c.cfg_read_fail_streak + 1 ≤ 10) :
    cfgStepFail c =
      ({ c with cfg_read_fail_streak := c.cfg_read_fail_streak + 1 },
        ⟨c.last_good_enabled, c.last_good_target_pkg, c.last_good_sampling_ms,
          c.last_good_keys⟩) := by
  simp [cfgStepFail, cfgStep, emptyLoopCfg, hen, htp, hs]

theorem cfgStepFail_discard (c : CfgCache) (hen : c.last_good_enabled = true)
    (htp : c.last_good_target_pkg ≠ "")
    (hs : ¬ (c.cfg_read_fail_streak + 1 ≤ 10)) :
    cfgStepFail c =
      ({ c with
          cfg_read_fail_streak := 0
          last_good_enabled := false
          last_good_target_pkg := "" }, emptyLoopCfg) := by
  simp [cfgStepFail, cfgStep, emptyLoopCfg, hen, htp, hs]

theorem cfgFailIter_streak (g : LoopCfg) (htp : g.target_pkg ≠ "") :
    ∀ (k s : ℕ), s + k ≤ 10 →
      cfgFailIter ⟨true, g.target_pkg, g.sampling_ms, g.keys, s⟩ k =
        ⟨true, g.target_pkg, g.sampling_ms, g.keys, s + k⟩ := by
  intro k
  induction k with
  | zero => intro s _; simp [cfgFailIter]
  | succ j ih =>
      intro s hsk
      have hstep := cfgStepFail_reuse ⟨true, g.target_pkg, g.sampling_ms, g.keys, s⟩
        rfl htp (show s + 1 ≤ 10 by omega)
      simp only [cfgFailIter, hstep]
      have heq := ih (s + 1) (by omega)
      rw [heq]
      have : s + 1 + j = s + (j + 1) := by omega
      rw [this]

/-- C2 counterexample: with a last-known-good config cached, after exactly 10
consecutive failed config reads the effective config is still the last-good
one and the loop keeps sampling — it does not transition to Idle as the claim
states (the discard only happens on the 11th consecutive failure). -/
theorem cfg_ten_failures_counterexample :
    (cfgStepFail (cfgFailIter
        (cacheOf ⟨true, "com.example.app", 1000, ["fps_app"]⟩) 9)).2 =
      ⟨true, "com.example.app", 1000, ["fps_app"]⟩ ∧
    cfgSampling (cfgStepFail (cfgFailIter
        (cacheOf ⟨true, "com.example.app", 1000, ["fps_app"]⟩) 9)).2 = true ∧
    (cfgStepFail (cfgFailIter
        (cacheOf ⟨true, "com.example.app", 1000, ["fps_app"]⟩) 9)).1.last_good_enabled
      = true := by
  decide

/-- C2 (amended): while the streak of consecutive failed config reads stays
at or below 10, the last-known-good config is reused and the loop keeps
sampling; on the 11th consecutive failure the cached config is discarded and
the effective config is the empty (Idle) one. -/
theorem cfg_last_good_retention :
    ∀ g : LoopCfg, g.enabled = true → g.target_pkg ≠ "" →
      (∀ n : ℕ, n < 10 →
        (cfgStepFail (cfgFailIter (cacheOf g) n)).2 =
          ⟨true, g.target_pkg, g.sampling_ms, g.keys⟩ ∧
        cfgSampling (cfgStepFail (cfgFailIter (cacheOf g) n)).2 = true) ∧
      ((cfgStepFail (cfgFailIter (cacheOf g) 10)).2 = emptyLoopCfg ∧
        cfgSampling (cfgStepFail (cfgFailIter (cacheOf g) 10)).2 = false ∧
        (cfgStepFail (cfgFailIter (cacheOf g) 10)).1.last_good_enabled = false ∧
        (cfgStepFail (cfgFailIter (cacheOf g) 10)).1.last_good_target_pkg = "") := by
  intro g hen htp
  have hcache : cacheOf g = ⟨true, g.target_pkg, g.sampling_ms, g.keys, 0⟩ := by
    simp [cacheOf, hen]
  constructor
  · intro n hn
    rw [hcache, cfgFailIter_streak g htp n 0 (by omega)]
    have hstep := cfgStepFail_reuse ⟨true, g.target_pkg, g.sampling_ms, g.keys, 0 + n⟩
      rfl htp (show 0 + n + 1 ≤ 10 by omega)
    rw [hstep]
    refine ⟨rfl, ?_⟩
    simp [cfgSampling, htp]
  · rw [hcache, cfgFailIter_streak g htp 10 0 (by omega)]
    have hstep := cfgStepFail_discard ⟨true, g.target_pkg, g.sampling_ms, g.keys, 0 + 10⟩
      rfl htp (show ¬ (0 + 10 + 1 ≤ 10) by omega)
    rw [hstep]
    exact ⟨rfl, rfl, rfl, rfl⟩

/-- C2 witness: concrete instantiation of `cfg_last_good_retention`. -/
theorem cfg_last_good_retention_witness :
    (cfgStepFail (cfgFailIter (cacheOf ⟨true, "com.x", 500, []⟩) 0)).2 =
      ⟨true, "com.x", 500, []⟩ ∧
    (cfgStepFail (cfgFailIter (cacheOf ⟨true, "com.x", 500, []⟩) 10)).2 =
      emptyLoopCfg :=
  ⟨((cfg_last_good_retention ⟨true, "com.x", 500, []⟩ rfl (by decide)).1 0
      (by omega)).1,
    ((cfg_last_good_retention ⟨true, "com.x", 500, []⟩ rfl (by decide)).2).1⟩

/-- C5 counterexample: the Idle transition of `run_sampler_loop` does not
reset `CpuState` — the previous per-process tick counter and timestamp
survive, contradicting the claim that all three rate-state accumulators
(CpuState, NetState, CpuTotalState) are reset. -/
theorem idle_reset_counterexample :
    (idleReset c5state).cpu_state.prev_ticks = some 100 ∧
    (idleReset c5state).cpu_state.prev_t_ms = some 5000 :=
  ⟨rfl, rfl⟩

/-- C5 (amended): on every transition of the sampler loop into Idle, the
NetState and CpuTotalState rate accumulators (and the gfx/sf frame states
and FPS bookkeeping) are reset — so network and total-CPU rates report no
value on the first sample after re-enabling — but the per-process CpuState
is left untouched. -/
theorem idle_reset_spec :
    ∀ s : SessionState,
      (idleReset s).cpu_total_state = ⟨none, none⟩ ∧
      (idleReset s).net_state = ⟨none, none, none⟩ ∧
      (idleReset s).gfx_state = gfxInit ∧
      (idleReset s).sf_state.layer = none ∧
      (idleReset s).sf_state.prev_max_present_ns = none ∧
      (idleReset s).sf_state.prev_t_ms = none ∧
      (idleReset s).sf_state.no_frame_streak = 0 ∧
      (idleReset s).sf_state.fail_streak = 0 ∧
      (idleReset s).sf_state.disabled = false ∧
      (idleReset s).last_fps_bg_at_ms = 0 ∧
      (idleReset s).fps_bg_producing = false ∧
      (∀ line : String, (parseCpuTotal line (idleReset s).cpu_total_state).1 = none) ∧
      (idleReset s).cpu_state = s.cpu_state := by
  intro s
  refine ⟨rfl, rfl, rfl, rfl, rfl, rfl, rfl, rfl, rfl, rfl, rfl, ?_, rfl⟩
  intro line
  simp only [parseCpuTotal]
  split
  · rfl
  · split
    · rfl
    · rfl

/-- C6: for every diffed counter pair where the later count is greater than
or equal to the earlier one, both the computed total CPU percentage (whenever
`_parse_cpu_total` produces one) and the computed per-process CPU percentage
lie in the closed interval [0, 100]. -/
theorem cpu_pct_bounds :
    (∀ (line : String) (st st2 : CpuTotalState) (pct : ℚ),
      parseCpuTotal line st = (some pct, st2) → 0 ≤ pct ∧ pct ≤ 100) ∧
    (∀ ticks prev_ticks now_ms prev_t_ms hz cores : ℤ,
      prev_ticks ≤ ticks →
      0 ≤ procCpuPct ticks prev_ticks now_ms prev_t_ms hz cores ∧
      procCpuPct ticks prev_ticks now_ms prev_t_ms hz cores ≤ 100) := by
  constructor
  · intro line st st2 pct h
    simp only [parseCpuTotal] at h
    split at h
    · simp at h
    · split at h
      · simp at h
      · split at h
        · split at h
          · simp only [Prod.mk.injEq, Option.some.injEq] at h
            rw [← h.1]
            exact ⟨le_max_left _ _, max_le (by norm_num) (min_le_left _ _)⟩
          · simp at h
        · simp at h
  · intro ticks prev_ticks now_ms prev_t_ms hz cores _
    unfold procCpuPct
    exact ⟨le_max_left _ _, max_le (by norm_num) (min_le_left _ _)⟩

theorem parseCpuTotal_example :
    parseCpuTotal "cpu 1 2 3 4 5 6 7" ⟨some 0, some 0⟩ =
      (some (600/7 : ℚ), ⟨some 28, some 4⟩) := by
  have hparts : pySplitWs "cpu 1 2 3 4 5 6 7" =
      ["cpu", "1", "2", "3", "4", "5", "6", "7"] := by decide
  have hvals : ((["cpu", "1", "2", "3", "4", "5", "6", "7"].drop 1).take 7).mapM
      pyInt? = some [1, 2, 3, 4, 5, 6, 7] := by decide
  simp only [parseCpuTotal, hparts, hvals]
  rw [if_neg (by decide)]
  norm_num [List.sum_cons, List.sum_nil]

/-- C6 witness: a concrete `/proc/stat` line and tick pair. -/
theorem cpu_pct_bounds_witness :
    parseCpuTotal "cpu 1 2 3 4 5 6 7" ⟨some 0, some 0⟩ =
      (some (600/7 : ℚ), ⟨some 28, some 4⟩) ∧
    (0 ≤ (600/7 : ℚ) ∧ (600/7 : ℚ) ≤ 100) ∧
    ((0 : ℤ) ≤ 30 ∧
      0 ≤ procCpuPct 30 0 2000 1000 100 4 ∧
      procCpuPct 30 0 2000 1000 100 4 ≤ 100) := by
  refine ⟨parseCpuTotal_example, ?_, ?_⟩
  · exact cpu_pct_bounds.1 "cpu 1 2 3 4 5 6 7" ⟨some 0, some 0⟩ ⟨some 28, some 4⟩
      (600/7 : ℚ) parseCpuTotal_example
  · refine ⟨by decide, ?_, ?_⟩
    · exact (cpu_pct_bounds.2 30 0 2000 1000 100 4 (by decide)).1
    · exact (cpu_pct_bounds.2 30 0 2000 1000 100 4 (by decide)).2

theorem gfxStep_absorb (st : GfxState) (now : ℤ) (o : GfxObs)
    (hd : st.disabled = true) : gfxStep st now o = (st, none, false) := by
  simp [gfxStep, hd]

theorem gfxStep_fail (st : GfxState) (now : ℤ) (o : GfxObs)
    (hd : st.disabled = false) (hf : gfxFailObs o) :
    (gfxStep st now o).1.fail_streak = st.fail_streak + 1 ∧
    (gfxStep st now o).1.disabled = decide (st.fail_streak + 1 ≥ 3) := by
  rcases hf with rfl | ⟨j, rfl⟩ <;>
    · simp only [gfxStep, hd, Bool.false_eq_true, if_false]
      by_cases h3 : st.fail_streak + 1 ≥ 3
      · simp [h3, hd]
      · simp [h3, hd]

theorem gfx_three_fails (st : GfxState) (now1 now2 now3 : ℤ)
    (o1 o2 o3 : GfxObs) (ho1 : gfxFailObs o1) (ho2 : gfxFailObs o2)
    (ho3 : gfxFailObs o3) :
    (gfxStep (gfxStep (gfxStep st now1 o1).1 now2 o2).1 now3 o3).1.disabled
      = true := by
  by_cases hd : st.disabled = true
  · simp only [gfxStep_absorb _ _ _ hd]
    exact hd
  · have hd' : st.disabled = false := by
      revert hd; cases st.disabled <;> simp
    obtain ⟨hf1, hd1⟩ := gfxStep_fail st now1 o1 hd' ho1
    by_cases h3 : st.fail_streak + 1 ≥ 3
    · have habs : (gfxStep st now1 o1).1.disabled = true := by
        rw [hd1]; simpa using h3
      simp only [gfxStep_absorb _ _ _ habs]
      exact habs
    · have hd1' : (gfxStep st now1 o1).1.disabled = false := by
        rw [hd1]; simpa using h3
      obtain ⟨hf2, hd2⟩ := gfxStep_fail _ now2 o2 hd1' ho2
      by_cases h4 : (gfxStep st now1 o1).1.fail_streak + 1 ≥ 3
      · have habs : (gfxStep (gfxStep st now1 o1).1 now2 o2).1.disabled = true := by
          rw [hd2]; simpa using h4
        simp only [gfxStep_absorb _ _ _ habs]
        exact habs
      · have hd2' : (gfxStep (gfxStep st now1 o1).1 now2 o2).1.disabled = false := by
          rw [hd2]; simpa using h4
        obtain ⟨hf3, hd3⟩ := gfxStep_fail _ now3 o3 hd2' ho3
        rw [hd3, hf2, hf1]
        simp only [decide_eq_true_eq]
        omega

/-- C9: three consecutive failures of the legacy gfxinfo frame counter set
its disabled flag; once disabled, the counter is never invoked again for the
rest of the session (the state is unchanged, no value is produced, the
invoked flag is false); only the transition to Idle clears the flag. -/
theorem gfx_disable_spec :
    (∀ (st : GfxState) (now1 now2 now3 : ℤ) (o1 o2 o3 : GfxObs),
      gfxFailObs o1 → gfxFailObs o2 → gfxFailObs o3 →
      (gfxStep (gfxStep (gfxStep st now1 o1).1 now2 o2).1 now3 o3).1.disabled
        = true) ∧
    (∀ (st : GfxState) (now : ℤ) (o : GfxObs), st.disabled = true →
      gfxStep st now o = (st, none, false)) ∧
    (∀ s : SessionState, (idleReset s).gfx_state.disabled = false) :=
  ⟨gfx_three_fails, gfxStep_absorb, fun _ => rfl⟩

/-- C9 witness: a fresh gfx state disabled by 3 consecutive errors, an
already-disabled state left untouched, and the Idle reset clearing the
flag. -/
theorem gfx_disable_spec_witness :
    (gfxStep (gfxStep (gfxStep gfxInit 0 .err).1 1 .err).1 2 .err).1.disabled
      = true ∧
    gfxStep (⟨none, none, none, 0, 3, true⟩ : GfxState) 5 (.parsed (some 9) none)
      = (⟨none, none, none, 0, 3, true⟩, none, false) ∧
    (idleReset ⟨⟨none, none⟩, ⟨none, none⟩, ⟨none, none, none⟩,
      ⟨some 1, some 2, some 3, 4, 5, true⟩,
      ⟨none, none, none, 0, 0, 0, false⟩, 0, false⟩).gfx_state.disabled = false :=
  ⟨gfx_disable_spec.1 gfxInit 0 1 2 .err .err .err (Or.inl rfl) (Or.inl rfl)
      (Or.inl rfl),
    gfx_disable_spec.2.1 ⟨none, none, none, 0, 3, true⟩ 5 (.parsed (some 9) none)
      rfl,
    gfx_disable_spec.2.2 _⟩

/-- C8: for both the config-read and metrics-write path modes, the cached
successful path is ordered first every cycle; while the cached path keeps
succeeding the other path is never probed (the probe list is just the cached
path) and the mode does not change; a success from the unknown mode caches
the succeeding path, and reading the same content again yields the identical
result without probing the other path. -/
theorem path_mode_caching_spec :
    ((cfgReaderOrder .external).head? = some .external ∧
      (cfgReaderOrder .runAs).head? = some .runAs ∧
      (metricsWriterOrder .external).head? = some .external ∧
      (metricsWriterOrder .runAs).head? = some .runAs) ∧
    (∀ (oracle : PathKind → ReadOutcome) (t : String),
      oracle .external = .ok t →
      tryCfgRead .external oracle = ⟨t, "external", .external, [.external]⟩) ∧
    (∀ (oracle : PathKind → ReadOutcome) (t : String),
      oracle .runAs = .ok t →
      tryCfgRead .runAs oracle = ⟨t, "run-as", .runAs, [.runAs]⟩) ∧
    (∀ oracle : PathKind → WriteOutcome,
      oracle .external = .ok →
      tryMetricsWrite .external oracle = ⟨true, .external, [.external]⟩) ∧
    (∀ oracle : PathKind → WriteOutcome,
      oracle .runAs = .ok →
      tryMetricsWrite .runAs oracle = ⟨true, .runAs, [.runAs]⟩) ∧
    (∀ (oracle : PathKind → ReadOutcome) (t : String),
      oracle .external = .ok t →
      tryCfgRead ((tryCfgRead .unknown oracle).mode) oracle =
        tryCfgRead .unknown oracle) ∧
    (∀ (oracle : PathKind → ReadOutcome) (t : String) (k : AdbErrKind),
      (k = .notFound ∨ k = .permissionDenied) →
      oracle .external = .err k → oracle .runAs = .ok t →
      tryCfgRead .unknown oracle = ⟨t, "run-as", .runAs, [.external, .runAs]⟩ ∧
      tryCfgRead .runAs oracle = ⟨t, "run-as", .runAs, [.runAs]⟩) := by
  refine ⟨⟨rfl, rfl, rfl, rfl⟩, ?_, ?_, ?_, ?_, ?_, ?_⟩
  · intro oracle t h
    simp [tryCfgRead, cfgReaderOrder, tryCfgRead2, pathSourceName, pathModeOf, h]
  · intro oracle t h
    simp [tryCfgRead, cfgReaderOrder, tryCfgRead2, pathSourceName, pathModeOf, h]
  · intro oracle h
    simp [tryMetricsWrite, metricsWriterOrder, tryMetricsWrite2, pathSourceName, pathModeOf, h]
  · intro oracle h
    simp [tryMetricsWrite, metricsWriterOrder, tryMetricsWrite2, pathSourceName, pathModeOf, h]
  · intro oracle t h
    simp [tryCfgRead, cfgReaderOrder, tryCfgRead2, pathSourceName, pathModeOf, h]
  · intro oracle t k hk he hr
    constructor
    · simp [tryCfgRead, cfgReaderOrder, tryCfgRead2, pathSourceName, pathModeOf, he, hr, hk]
    · simp [tryCfgRead, cfgReaderOrder, tryCfgRead2, pathSourceName, pathModeOf, hr]

/-- C8 witness: concrete oracles exercising the cached-path fast path and
the unknown-mode probe. -/
theorem path_mode_caching_spec_witness :
    tryCfgRead .external (fun _ => .ok "cfg") =
      ⟨"cfg", "external", .external, [.external]⟩ ∧
    tryMetricsWrite .runAs (fun _ => .ok) = ⟨true, .runAs, [.runAs]⟩ ∧
    tryCfgRead ((tryCfgRead .unknown (fun _ => .ok "cfg")).mode)
        (fun _ => .ok "cfg") =
      tryCfgRead .unknown (fun _ => .ok "cfg") ∧
    tryCfgRead .unknown
        (fun k => match k with
          | .external => .err .notFound
          | .runAs => .ok "cfg2") =
      ⟨"cfg2", "run-as", .runAs, [.external, .runAs]⟩ :=
  ⟨path_mode_caching_spec.2.1 (fun _ => .ok "cfg") "cfg" rfl,
    path_mode_caching_spec.2.2.2.2.1 (fun _ => .ok) rfl,
    path_mode_caching_spec.2.2.2.2.2.1 (fun _ => .ok "cfg") "cfg" rfl,
    (path_mode_caching_spec.2.2.2.2.2.2
      (fun k => match k with
        | .external => .err .notFound
        | .runAs => .ok "cfg2") "cfg2" .notFound (Or.inl rfl) rfl rfl).1⟩

/-- C10: the background worker increments `sample_count` on every offline
(Perfetto) analysis attempt, including ones producing no FPS value; after two
such attempts the sampler's producing condition (`sample_count ≥ 2`) holds
while `read_latest` still reports no FPS and timestamp 0, and in that state
the per-cycle FPS task returns no value and never invokes the legacy
gfxinfo counter. -/
theorem bg_producing_no_value_spec :
    ∀ (t1 t2 now : ℤ) (d1 d2 : String) (g : GfxState) (o : GfxObs),
      (loopPerfettoIter (loopPerfettoIter fpsWorkerInit none d1 t1)
        none d2 t2).sample_count = 2 ∧
      producingUpdate false
        (loopPerfettoIter (loopPerfettoIter fpsWorkerInit none d1 t1)
          none d2 t2).sample_count = true ∧
      readLatest (loopPerfettoIter (loopPerfettoIter fpsWorkerInit none d1 t1)
        none d2 t2) = (none, 0, "") ∧
      sampleFps true true (fun _ => (none, 0)) 0 g o now = (none, g, false) :=
  fun _ _ _ _ _ _ _ => ⟨rfl, rfl, rfl, rfl⟩

theorem selectLoop_skip (stats : FtFilter → Option (ℕ × ℤ × ℤ))
    (table : String) (dur : ℤ) :
    ∀ (l rest : List FtFilter) (acc : Option (ℕ × ℤ × ℤ)),
      (∀ f ∈ l, f ≠ FtFilter.unfiltered ∧ zeroOrFailed (stats f)) →
      selectLoop stats table dur (l ++ rest) acc =
        selectLoop stats table dur rest acc := by
  intro l
  induction l with
  | nil => intro rest acc _; rfl
  | cons f l ih =>
      intro rest acc hall
      obtain ⟨hne, hzf⟩ := hall f (List.mem_cons_self f l)
      have htail := fun g hg => hall g (List.mem_cons_of_mem f hg)
      rcases hzf with hnone | ⟨mn, mx, hsome⟩
      · simp only [List.cons_append, selectLoop, hnone]
        exact ih rest acc htail
      · simp only [List.cons_append, selectLoop, hsome]
        simp [hne]
        exact ih rest acc htail

theorem selectLoop_first (stats : FtFilter → Option (ℕ × ℤ × ℤ))
    (table : String) (dur : ℤ) (f : FtFilter) (cnt : ℕ) (mn mx : ℤ)
    (l2 : List FtFilter) (acc : Option (ℕ × ℤ × ℤ))
    (hs : stats f = some (cnt, mn, mx)) (hc : 0 < cnt) :
    (selectLoop stats table dur (f :: l2) acc).1 =
      some (acceptStats table (filterHuman f) dur cnt mn mx) := by
  simp [selectLoop, hs, Nat.not_le.mpr hc]

theorem buildFiltersBase_ne (cols : List String) (lh : Option String)
    (lc : Option (List String)) (pkg : String) :
    ∀ f ∈ buildFiltersBase cols lh lc pkg, f ≠ FtFilter.unfiltered := by
  intro f hf
  simp only [buildFiltersBase] at hf
  split at hf
  · simp only [List.mem_append, List.mem_map] at hf
    rcases hf with (⟨c, _, rfl⟩ | ⟨c, _, rfl⟩) | h
    · simp
    · simp
    · split at h
      · rcases List.mem_singleton.mp h with rfl
        simp
      · simp at h
  · split at hf
    · rcases List.mem_singleton.mp hf with rfl
      simp
    · simp at hf

/-- C4: with a `layer_name` column the filters are ranked exact-match on each
candidate, then substring-match on each candidate, then substring-match on
the target package, then no filter; the first filter with a non-zero count
determines the returned FPS; in the spec's example (exact 0, like 12,
unfiltered 40) the substring-match result (count 12, span 0.5s, FPS 24) is
selected rather than the unfiltered one. -/
theorem perfetto_filter_order_spec :
    (∀ (cols : List String) (lh : Option String) (lc : Option (List String))
      (pkg : String), "layer_name" ∈ cols → pyStrip pkg ≠ "" →
      buildFilters cols lh lc pkg =
        ((candList lh lc).take 10).map FtFilter.layerEq ++
        ((candList lh lc).take 10).map FtFilter.layerLike ++
        [FtFilter.pkgLike (pyStrip pkg), FtFilter.unfiltered]) ∧
    (∀ (stats : FtFilter → Option (ℕ × ℤ × ℤ)) (table : String) (dur : ℤ)
      (l1 l2 : List FtFilter) (f : FtFilter) (cnt : ℕ) (mn mx : ℤ)
      (acc : Option (ℕ × ℤ × ℤ)),
      (∀ g ∈ l1, g ≠ FtFilter.unfiltered ∧ zeroOrFailed (stats g)) →
      stats f = some (cnt, mn, mx) → 0 < cnt →
      (selectLoop stats table dur (l1 ++ f :: l2) acc).1 =
        some (acceptStats table (filterHuman f) dur cnt mn mx)) ∧
    ((perfettoSelect c4stats "actual_frame_timeline_slice" ["ts", "layer_name"]
        none (some ["SurfaceView[pkg]#0"]) "pkg" 1500).1 = some 24) := by
  refine ⟨?_, ?_, ?_⟩
  · intro cols lh lc pkg hmem hpkg
    simp [buildFilters, buildFiltersBase, hmem, hpkg]
  · intro stats table dur l1 l2 f cnt mn mx acc hall hs hc
    rw [selectLoop_skip stats table dur l1 (f :: l2) acc hall]
    exact selectLoop_first stats table dur f cnt mn mx l2 acc hs hc
  · have hbf : buildFilters ["ts", "layer_name"] none
        (some ["SurfaceView[pkg]#0"]) "pkg" =
        [FtFilter.layerEq "SurfaceView[pkg]#0",
          FtFilter.layerLike "SurfaceView[pkg]#0",
          FtFilter.pkgLike "pkg", FtFilter.unfiltered] := by decide
    simp only [perfettoSelect, hbf, selectLoop, c4stats]
    norm_num [acceptStats]

/-- C4 witness: concrete instantiations of the ordered-filters equation and
the first-non-zero selection. -/
theorem perfetto_filter_order_spec_witness :
    buildFilters ["layer_name"] none none "pkg" =
      ((candList none none).take 10).map FtFilter.layerEq ++
      ((candList none none).take 10).map FtFilter.layerLike ++
      [FtFilter.pkgLike (pyStrip "pkg"), FtFilter.unfiltered] ∧
    (selectLoop c4stats "t" 1500
        ([FtFilter.layerEq "a"] ++ FtFilter.layerLike "b" :: []) none).1 =
      some (acceptStats "t" (filterHuman (FtFilter.layerLike "b")) 1500
        12 100000000 600000000) :=
  ⟨perfetto_filter_order_spec.1 ["layer_name"] none none "pkg"
      (List.mem_singleton.mpr rfl) (by decide),
    perfetto_filter_order_spec.2.1 c4stats "t" 1500 [FtFilter.layerEq "a"] []
      (FtFilter.layerLike "b") 12 100000000 600000000 none
      (by
        intro g hg
        rcases List.mem_singleton.mp hg with rfl
        exact ⟨by simp, Or.inr ⟨0, 0, rfl⟩⟩)
      rfl (by omega)⟩

/-- C3 counterexample: when every layer-name filter yields a zero count but
the unfiltered count is non-zero (40 over a 1500ms capture), the function
does not report a diagnostic-only result as claimed: the unfiltered filter
is the last ranked candidate, its non-zero count is accepted, and a usable
FPS (40·1000/1500 = 80/3) is returned. -/
theorem perfetto_unfiltered_counterexample :
    (perfettoSelect c3stats "actual_frame_timeline_slice" ["ts", "layer_name"]
      none (some ["SurfaceView[pkg]#0"]) "pkg" 1500).1 = some (80/3 : ℚ) := by
  have hbf : buildFilters ["ts", "layer_name"] none
      (some ["SurfaceView[pkg]#0"]) "pkg" =
      [FtFilter.layerEq "SurfaceView[pkg]#0",
        FtFilter.layerLike "SurfaceView[pkg]#0",
        FtFilter.pkgLike "pkg", FtFilter.unfiltered] := by decide
  simp only [perfettoSelect, hbf, selectLoop, c3stats]
  norm_num [acceptStats]

/-- C3 (amended): when every filter other than the unfiltered last resort
yields a zero count or a failed query, then: if the unfiltered count is also
zero the function returns no FPS and reports the unfiltered count in a
diagnostic string; if the unfiltered count is non-zero, its result is
returned as a usable FPS (the diagnostic-only outcome does not occur). -/
theorem perfetto_zero_count_diagnostic :
    ∀ (stats : FtFilter → Option (ℕ × ℤ × ℤ)) (table : String)
      (cols : List String) (lh : Option String) (lc : Option (List String))
      (pkg : String) (dur : ℤ) (cnt0 : ℕ) (mn mx : ℤ),
      (∀ f : FtFilter, f ≠ FtFilter.unfiltered → zeroOrFailed (stats f)) →
      stats FtFilter.unfiltered = some (cnt0, mn, mx) →
      (cnt0 = 0 →
        perfettoSelect stats table cols lh lc pkg dur =
          (none, "frame_timeline 计数为 0（未过滤总计=0）")) ∧
      (0 < cnt0 →
        perfettoSelect stats table cols lh lc pkg dur =
          (some (acceptStats table "unfiltered" dur cnt0 mn mx).1,
            (acceptStats table "unfiltered" dur cnt0 mn mx).2)) := by
  intro stats table cols lh lc pkg dur cnt0 mn mx hzf hunf
  have hbase := buildFiltersBase_ne cols lh lc pkg
  have hskip := selectLoop_skip stats table dur (buildFiltersBase cols lh lc pkg)
    [FtFilter.unfiltered] none
    (fun g hg => ⟨hbase g hg, hzf g (hbase g hg)⟩)
  constructor
  · intro h0
    subst h0
    simp only [perfettoSelect, buildFilters, hskip, selectLoop, hunf]
    norm_num [selectLoop]
    decide
  · intro hpos
    simp only [perfettoSelect, buildFilters, hskip, selectLoop, hunf]
    simp [Nat.not_le.mpr hpos]
    exact ⟨rfl, rfl⟩

/-- C3 witness: concrete instantiations of both branches of
`perfetto_zero_count_diagnostic`. -/
theorem perfetto_zero_count_diagnostic_witness :
    perfettoSelect c3zero "tbl" ["layer_name"] none none "" 1500 =
      (none, "frame_timeline 计数为 0（未过滤总计=0）") ∧
    perfettoSelect c3pos "tbl" [] none none "" 2000 =
      (some (acceptStats "tbl" "unfiltered" 2000 30 0 0).1,
        (acceptStats "tbl" "unfiltered" 2000 30 0 0).2) :=
  ⟨(perfetto_zero_count_diagnostic c3zero "tbl" ["layer_name"] none none "" 1500
      0 0 0 (fun _ _ => Or.inr ⟨0, 0, rfl⟩) rfl).1 rfl,
    (perfetto_zero_count_diagnostic c3pos "tbl" [] none none "" 2000
      30 0 0
      (by
        intro f hf
        cases f
        · exact Or.inl rfl
        · exact Or.inl rfl
        · exact Or.inl rfl
        · exact Or.inl rfl
        · exact absurd rfl hf)
      rfl).2 (by omega)⟩

end IKun
